import Mathlib

/-!
Verification of the `automation_helper` Home Assistant integration
(`custom_components/automation_helper/__init__.py`).

The Python module is embedded shallowly:

* strings are Lean `String`s, manipulated through their underlying `List Char`
  so that every operation is structurally recursive and kernel-computable;
* Python's truthiness tests (`x or y`, `if self.description:`) are modelled
  explicitly (`pyOrStr`, option/emptiness tests);
* the external `yaml.safe_dump` serializer (called with `sort_keys=False`,
  `indent=2`, `default_flow_style=False`, `allow_unicode=True`) is modelled by
  `safeDump` below, reproducing PyYAML's block style on the value shapes this
  integration produces: insertion-ordered mappings, indentless block
  sequences, `[]`/`{}` for empty collections, and single-quoting of scalars
  that PyYAML would not emit plain (strings starting with an indicator
  character such as `!`, and YAML 1.1 boolean-like words such as `on`);
* the filesystem is a pure state (`FS`): an association list of written files
  and a list of created directories; handlers return
  `Except (String × FS) FS`, the error carrying the message of the raised
  `HomeAssistantError` together with the filesystem state at the moment of
  the raise.

Python string functions are modelled on ASCII text (`str.strip`, `str.lower`,
`str.title`, and the `\s` class of the two regexes in `slugify`/`humanize`
also cover some non-ASCII characters in CPython; no claim below depends on
that).
-/

/-! ## ASCII / Python string primitives -/

/-- The whitespace characters of Python's `str.strip` and of the regex class
`\s`, restricted to ASCII: space, tab, newline, carriage return, vertical
tab, form feed. -/
def isPySpace (c : Char) : Bool :=
  c.toNat == 32 || c.toNat == 9 || c.toNat == 10 || c.toNat == 13 ||
    c.toNat == 11 || c.toNat == 12

/-- Python `str.strip()` on a character list: drop leading and trailing
whitespace. -/
def pyStrip (l : List Char) : List Char :=
  ((l.dropWhile isPySpace).reverse.dropWhile isPySpace).reverse

/-- Python `str.strip()` on a `String`. -/
def pyStripStr (s : String) : String := String.mk (pyStrip s.data)

/-- Python `str.lower()` on one ASCII character. -/
def asciiLower (c : Char) : Char :=
  if 65 ≤ c.toNat ∧ c.toNat ≤ 90 then Char.ofNat (c.toNat + 32) else c

/-- Python `str.upper()` on one ASCII character. -/
def asciiUpper (c : Char) : Char :=
  if 97 ≤ c.toNat ∧ c.toNat ≤ 122 then Char.ofNat (c.toNat - 32) else c

def isAsciiAlpha (c : Char) : Bool :=
  (65 ≤ c.toNat && c.toNat ≤ 90) || (97 ≤ c.toNat && c.toNat ≤ 122)

/-- Replace every maximal run of characters satisfying `p` by the single
character `r` (the regex substitution `re.sub("[p]+", r, ...)`). The flag
records whether the previous character belonged to a run. -/
def collapseRuns (r : Char) (p : Char → Bool) : Bool → List Char → List Char
  | _, [] => []
  | true, c :: rest =>
    if p c then collapseRuns r p true rest else c :: collapseRuns r p false rest
  | false, c :: rest =>
    if p c then r :: collapseRuns r p true rest else c :: collapseRuns r p false rest

/-- Python `str.title()`: the first character of every run of cased
characters is uppercased, the rest lowercased. The flag records whether the
previous character was cased. -/
def titleCase : Bool → List Char → List Char
  | _, [] => []
  | prevCased, c :: rest =>
    if isAsciiAlpha c then
      (if prevCased then asciiLower c else asciiUpper c) :: titleCase true rest
    else c :: titleCase false rest

/-- Python `str.replace(pat, repl)` (all leftmost non-overlapping
occurrences). The `Nat` argument counts characters of a just-matched
occurrence still to be consumed. -/
def replaceAux (pat repl : List Char) : Nat → List Char → List Char
  | _, [] => []
  | Nat.succ k, _ :: rest => replaceAux pat repl k rest
  | 0, c :: rest =>
    if pat.isPrefixOf (c :: rest) then
      repl ++ replaceAux pat repl (pat.length - 1) rest
    else
      c :: replaceAux pat repl 0 rest

def pyReplace (s pat repl : String) : String :=
  String.mk (replaceAux pat.data repl.data 0 s.data)

/-- Whether `pat` occurs as a contiguous substring. -/
def containsSub (pat : List Char) : List Char → Bool
  | [] => pat.isEmpty
  | c :: rest => pat.isPrefixOf (c :: rest) || containsSub pat rest

/-- Whether the string `pat` occurs as a contiguous substring of `s`. -/
def containsStr (s pat : String) : Bool := containsSub pat.data s.data

/-- Python `x or default` for an optional string (`None` and `""` are falsy). -/
def pyOrStr (x : Option String) (default : String) : String :=
  match x with
  | none => default
  | some s => if s.isEmpty then default else s

/-! ## `slugify` and `humanize` (source lines 226–237) -/

/-- The characters kept by the substitution `re.sub(r"[^a-z0-9_\- ]", "", v)`. -/
def isSlugKeep (c : Char) : Bool :=
  (97 ≤ c.toNat && c.toNat ≤ 122) || (48 ≤ c.toNat && c.toNat ≤ 57) ||
    c.toNat == 95 || c.toNat == 45 || c.toNat == 32

/-- The class `[\s\-]` of the substitution `re.sub(r"[\s\-]+", "_", v)`. -/
def isSpaceOrHyphen (c : Char) : Bool := isPySpace c || c.toNat == 45

/-- The value of `slugify`'s local variable after the three reassignments
(strip + lower, character filter, run collapsing), before the fallback. -/
def slugCollapsed (l : List Char) : List Char :=
  collapseRuns '_' isSpaceOrHyphen false (((pyStrip l).map asciiLower).filter isSlugKeep)

def slugifyCore (l : List Char) : List Char :=
  if (slugCollapsed l).isEmpty then "automation".data else slugCollapsed l

/-- `slugify` (source lines 226–231): strip, lowercase, delete characters
outside `[a-z0-9_\- ]`, collapse runs of whitespace/hyphens to `_`, and fall
back to `"automation"` when nothing is left. -/
def slugify (s : String) : String := String.mk (slugifyCore s.data)

def isUnderscoreOrHyphen (c : Char) : Bool := c.toNat == 95 || c.toNat == 45

/-- `humanize` (source lines 234–237): replace runs of `_`/`-` by a space,
strip, title-case; `"Automation"` when nothing is left. -/
def humanize (s : String) : String :=
  let cleaned := pyStrip (collapseRuns ' ' isUnderscoreOrHyphen false s.data)
  if cleaned.isEmpty then "Automation" else String.mk (titleCase false cleaned)

/-! ## YAML values and the serializer

The integration serializes nested dict/list/scalar structures with
`yaml.safe_dump(..., sort_keys=False, indent=2, default_flow_style=False,
allow_unicode=True)`. `safeDump` below models PyYAML's output on the value
shapes the integration builds: insertion-ordered block mappings, indentless
block sequences (sequence dashes at the parent key's column), `[]` / `{}`
for empty collections, plain scalars except for strings PyYAML would not
emit plain — the empty string, YAML 1.1 boolean/null words such as `on`,
and strings starting with an indicator character such as `!` — which are
emitted single-quoted (with inner quotes doubled). The mutually inductive
value type keeps every definition structurally recursive, hence computable
by the kernel. -/

mutual
inductive Yaml where
  | str (v : String)
  | nat (v : Nat)
  | arr (xs : YamlSeq)
  | map (kvs : YamlMap)
inductive YamlSeq where
  | nil
  | cons (hd : Yaml) (tl : YamlSeq)
inductive YamlMap where
  | nil
  | cons (k : String) (v : Yaml) (tl : YamlMap)
end

def YamlSeq.ofList : List Yaml → YamlSeq
  | [] => .nil
  | y :: ys => .cons y (YamlSeq.ofList ys)

def YamlMap.ofList : List (String × Yaml) → YamlMap
  | [] => .nil
  | (k, v) :: kvs => .cons k v (YamlMap.ofList kvs)

/-- A mapping value built from a key/value list. -/
def Yaml.obj (kvs : List (String × Yaml)) : Yaml := .map (YamlMap.ofList kvs)

/-- A sequence value built from a list. -/
def Yaml.list (xs : List Yaml) : Yaml := .arr (YamlSeq.ofList xs)

/-- YAML 1.1 words PyYAML's resolver reads as booleans or null, so the
emitter quotes them when they occur as strings. -/
def yamlSpecialWords : List String :=
  ["true", "false", "yes", "no", "on", "off", "null", "~",
   "True", "False", "Yes", "No", "On", "Off", "Null",
   "TRUE", "FALSE", "YES", "NO", "ON", "OFF", "NULL"]

/-- Characters that prevent a plain scalar when they start the string. -/
def isYamlIndicatorStart (c : Char) : Bool :=
  c == '!' || c == '&' || c == '*' || c == '?' || c == '|' || c == '>' ||
  c == '%' || c == '@' || c == '`' || c == '"' || c == '\'' || c == '#' ||
  c == ',' || c == '\x5b' || c == '\x5d' || c == '\x7b' || c == '\x7d'

/-- Whether PyYAML would refuse to emit `s` as a plain scalar (restricted to
the string shapes this integration produces: no string here looks numeric,
contains `: `, ` #`, or leading/trailing blanks). -/
def needsQuote (s : String) : Bool :=
  s.isEmpty || yamlSpecialWords.contains s ||
    (match s.data with
     | [] => true
     | c :: _ => isYamlIndicatorStart c)

/-- PyYAML's single-quoted style: inner single quotes are doubled. -/
def singleQuoted (s : String) : String := "'" ++ pyReplace s "'" "''" ++ "'"

def pyScalar (s : String) : String := if needsQuote s then singleQuoted s else s

def spaces (n : Nat) : String := String.mk (List.replicate n ' ')

def strDrop (n : Nat) (s : String) : String := String.mk (s.data.drop n)

def YamlSeq.isNil : YamlSeq → Bool
  | .nil => true
  | .cons _ _ => false

def YamlMap.isNil : YamlMap → Bool
  | .nil => true
  | .cons _ _ _ => false

mutual
/-- Block-style lines of a mapping's entries, keys at column `ind`. -/
def dumpEntries (ind : Nat) : YamlMap → String
  | .nil => ""
  | .cons k v tl => dumpEntry ind k v ++ dumpEntries ind tl
/-- One `key: value` entry (nested collections on following lines;
sequences indentless, i.e. dashes at the key's own column). -/
def dumpEntry (ind : Nat) (k : String) : Yaml → String
  | .str v => spaces ind ++ pyScalar k ++ ": " ++ pyScalar v ++ "\n"
  | .nat v => spaces ind ++ pyScalar k ++ ": " ++ toString v ++ "\n"
  | .arr ys =>
      if ys.isNil then spaces ind ++ pyScalar k ++ ": []\n"
      else spaces ind ++ pyScalar k ++ ":\n" ++ dumpItems ind ys
  | .map m =>
      if m.isNil then spaces ind ++ pyScalar k ++ ": {}\n"
      else spaces ind ++ pyScalar k ++ ":\n" ++ dumpEntries (ind + 2) m
/-- Block-style lines of a sequence's items, dashes at column `ind`. -/
def dumpItems (ind : Nat) : YamlSeq → String
  | .nil => ""
  | .cons y tl => dumpItem ind y ++ dumpItems ind tl
/-- One `- item` line (a mapping item shares its first line with the dash). -/
def dumpItem (ind : Nat) : Yaml → String
  | .str v => spaces ind ++ "- " ++ pyScalar v ++ "\n"
  | .nat v => spaces ind ++ "- " ++ toString v ++ "\n"
  | .arr ys =>
      if ys.isNil then spaces ind ++ "- []\n"
      else spaces ind ++ "- " ++ strDrop (ind + 2) (dumpItems (ind + 2) ys)
  | .map m =>
      if m.isNil then spaces ind ++ "- {}\n"
      else spaces ind ++ "- " ++ strDrop (ind + 2) (dumpEntries (ind + 2) m)
end

/-- `yaml.safe_dump(mapping, sort_keys=False, indent=2,
default_flow_style=False, allow_unicode=True)` — every call site of the
integration passes a top-level dict. -/
def safeDump (kvs : List (String × Yaml)) : String := dumpEntries 0 (YamlMap.ofList kvs)

/-! ## Data model (source lines 26–58) -/

/-- A trigger/condition/action step: an opaque structured mapping passed
through verbatim from caller input to serialized output. -/
def Step := YamlMap

/-- `AutomationDefinition` (source lines 26–35). -/
structure AutomationDefinition where
  «alias» : String
  description : Option String
  mode : String
  trigger : List Step
  condition : Option (List Step)
  action : List Step

/-- Python truthiness of an optional string (`None` and `""` are falsy). -/
def pyTruthyStr : Option String → Bool
  | none => false
  | some s => !s.isEmpty

/-- Python truthiness of an optional list (`None` and `[]` are falsy). -/
def pyTruthyList : Option (List Step) → Bool
  | none => false
  | some l => !l.isEmpty

/-- Python `l or []` on a list. -/
def pyOrList (l : List Step) : List Step := if l.isEmpty then [] else l

def stepsYaml (steps : List Step) : Yaml := .arr (YamlSeq.ofList (steps.map Yaml.map))

/-- The dict built by `AutomationDefinition.to_yaml` (source lines 39–50),
as its insertion-ordered key/value list: `alias`, `mode`, `trigger` and
`action` always; `description` appended only when truthy, then `condition`
only when truthy. -/
def AutomationDefinition.entries (d : AutomationDefinition) : List (String × Yaml) :=
  [("alias", .str d.«alias»), ("mode", .str d.mode),
   ("trigger", stepsYaml (pyOrList d.trigger)), ("action", stepsYaml (pyOrList d.action))]
  ++ (if pyTruthyStr d.description then [("description", .str (d.description.getD ""))] else [])
  ++ (if pyTruthyList d.condition then [("condition", stepsYaml (d.condition.getD []))] else [])

/-- The top-level keys of the serialized automation, in output order. -/
def AutomationDefinition.yamlKeys (d : AutomationDefinition) : List String :=
  d.entries.map Prod.fst

/-- `AutomationDefinition.to_yaml` (source lines 37–58). -/
def AutomationDefinition.to_yaml (d : AutomationDefinition) : String :=
  safeDump d.entries

/-! ## Template builders (source lines 257–462) -/

/-- `build_automation_package_yaml` (source lines 257–299). -/
def build_automation_package_yaml (name : String) (description : Option String)
    (include_example : Bool) : String :=
  let header := "# Automations for the " ++ name ++ " package\n"
  let automations : List Yaml :=
    if include_example then
      [Yaml.obj
        [("alias", .str (name ++ " – example")),
         ("description", .str (pyOrStr description
            "Replace the trigger and actions with your real automation logic.")),
         ("trigger", Yaml.list
            [Yaml.obj [("platform", .str "state"),
                       ("entity_id", .str "binary_sensor.example"),
                       ("to", .str "on")]]),
         ("condition", Yaml.list []),
         ("action", Yaml.list
            [Yaml.obj [("service", .str "logbook.log"),
                       ("data", Yaml.obj [("name", .str name),
                          ("message", .str "Replace this with useful actions.")])]]),
         ("mode", .str "single")]]
    else []
  header ++ safeDump [("automation", Yaml.list automations)]

/-- `build_scripts_package_yaml` (source lines 302–329). -/
def build_scripts_package_yaml (name : String) (include_example : Bool) : String :=
  let header := "# Scripts for the " ++ name ++ " package\n"
  let scripts : List (String × Yaml) :=
    if include_example then
      [(slugify (name ++ " helper"),
        Yaml.obj
          [("alias", .str (name ++ " helper")),
           ("sequence", Yaml.list
              [Yaml.obj [("service", .str "logbook.log"),
                         ("data", Yaml.obj [("name", .str name),
                            ("message", .str "Replace this script with your real sequence.")])]])])]
    else []
  header ++ safeDump [("script", Yaml.obj scripts)]

/-- `build_scenes_package_yaml` (source lines 332–359). -/
def build_scenes_package_yaml (name : String) (include_example : Bool) : String :=
  let header := "# Scenes for the " ++ name ++ " package\n"
  let scenes : List Yaml :=
    if include_example then
      [Yaml.obj
        [("name", .str (name ++ " scene")),
         ("icon", .str "mdi:palette"),
         ("entities", Yaml.obj
            [("light.example", Yaml.obj [("state", .str "on"), ("brightness", .nat 200)])])]]
    else []
  header ++ safeDump [("scene", Yaml.list scenes)]

/-- `build_package_readme` (source lines 362–400). -/
def build_package_readme (name : String) (description : Option String)
    (include_scripts include_scenes include_blueprint : Bool) : String :=
  let l0 := ["# " ++ name ++ " package", ""]
  let l1 := l0 ++ [pyOrStr description "Describe the goal of this automation package."]
  let l2 := l1 ++ ["", "## Contents", "", "- `automations.yaml`"]
  let l3 := l2 ++ (if include_scripts then ["- `scripts.yaml`"] else [])
  let l4 := l3 ++ (if include_scenes then ["- `scenes.yaml`"] else [])
  let l5 := l4 ++ (if include_blueprint then ["- `blueprints/` automation or script blueprint"] else [])
  let l6 := l5 ++ ["", "## Getting started", "",
    "1. Adjust the example entries to match your devices.",
    "2. Load the package by enabling `packages:` in `configuration.yaml`.",
    "3. Restart Home Assistant and verify the automations appear as expected."]
  String.intercalate "\n" l6 ++ "\n"

/-- The dict built by `build_blueprint_yaml` before serialization (source
lines 408–451): metadata block, then the domain-specific `trigger`/`action`
pair for domain `"automation"` or a `sequence` otherwise. -/
def blueprintStructure (name : String) (description : Option String)
    (domain : String) : List (String × Yaml) :=
  let base : List (String × Yaml) :=
    [("name", .str (name ++ " helper blueprint")),
     ("description", .str (pyOrStr description
        "Adapt this blueprint to create reusable automations or scripts.")),
     ("domain", .str domain),
     ("input", Yaml.obj
        [("target_entity", Yaml.obj
           [("name", .str "Target entity"),
            ("description", .str "Entity that should receive the action."),
            ("selector", Yaml.obj [("entity", Yaml.obj [])])])]),
     ("source_url", .str "https://github.com/404GamerNotFound/ha_automation_helper")]
  let extra : List (String × Yaml) :=
    if domain == "automation" then
      [("trigger", Yaml.list
          [Yaml.obj [("platform", .str "state"),
                     ("entity_id", .str "!input target_entity"),
                     ("to", .str "on")]]),
       ("action", Yaml.list
          [Yaml.obj [("service", .str "logbook.log"),
                     ("data", Yaml.obj [("name", .str name),
                        ("message", .str "Blueprint triggered – replace with useful actions.")])]])]
    else
      [("sequence", Yaml.list
          [Yaml.obj [("service", .str "logbook.log"),
                     ("data", Yaml.obj [("name", .str name),
                        ("message", .str "Blueprint executed – replace with useful steps.")])]])]
  [("blueprint", Yaml.obj (base ++ extra))]

/-- `build_blueprint_yaml` (source lines 403–462): serialize, then strip the
quotes the serializer put around the `!input target_entity` sentinel (both
the single- and the double-quoted form). -/
def build_blueprint_yaml (name : String) (description : Option String)
    (domain : String) : String :=
  let yaml_body := safeDump (blueprintStructure name description domain)
  let yaml_body := pyReplace yaml_body "'!input target_entity'" "!input target_entity"
  pyReplace yaml_body "\"!input target_entity\"" "!input target_entity"

/-! ## Filesystem model and the guarded writer

Paths are segment lists below the Home Assistant configuration directory
(`hass.config.path(...)`); `FS` records the written files and the created
directories. Handlers return `Except (String × FS) FS`: an error carries
the message of the raised `HomeAssistantError` together with the filesystem
state at the moment of the raise, so "nothing was changed before the
failure" is the statement that the carried state equals the initial one. -/

abbrev FsPath := List String

structure FS where
  files : List (FsPath × String)
  dirs : List FsPath

def FS.empty : FS := ⟨[], []⟩

def lookupFile (fs : FS) (p : FsPath) : Option String :=
  (fs.files.find? (fun e => decide (e.1 = p))).map Prod.snd

/-- `Path.exists()`: a written file or a created directory. -/
def pathExists (fs : FS) (p : FsPath) : Bool :=
  fs.files.any (fun e => decide (e.1 = p)) || fs.dirs.any (fun d => decide (d = p))

/-- The nonempty prefixes of a path, shortest first. -/
def prefixesOf (p : FsPath) : List FsPath :=
  (List.range p.length).map (fun i => p.take (i + 1))

/-- `d.mkdir(parents=True, exist_ok=True)`: record `d` and all its
ancestors (duplicates are harmless: existence is membership). -/
def mkdirParents (fs : FS) (d : FsPath) : FS :=
  { fs with dirs := fs.dirs ++ prefixesOf d }

/-- `path.write_text(content)`: insert or overwrite. -/
def writeText (fs : FS) (p : FsPath) (content : String) : FS :=
  { fs with files := (p, content) :: fs.files.filter (fun e => !decide (e.1 = p)) }

/-- `any(d.iterdir())`: something lies strictly below `d`. -/
def dirNonEmpty (fs : FS) (d : FsPath) : Bool :=
  fs.files.any (fun e => d.isPrefixOf e.1 && decide (e.1 ≠ d)) ||
    fs.dirs.any (fun q => d.isPrefixOf q && decide (q ≠ d))

/-- A path rendered the way `str(path)` renders it in the error messages,
relative to the configuration directory. -/
def pathStr (p : FsPath) : String := String.intercalate "/" p

abbrev HaResult := Except (String × FS) FS

/-- `_async_write_file` (source lines 240–254) together with the `_write`
closure it offloads: refuse when the target exists and `overwrite` is
false (the raised `FileExistsError` is re-raised as a `HomeAssistantError`
naming the path), otherwise create the parent directories and write. -/
def async_write_file (fs : FS) (path : FsPath) (content : String)
    (overwrite : Bool) : HaResult :=
  if pathExists fs path && !overwrite then
    .error ("Automation Helper refused to overwrite " ++ pathStr path, fs)
  else
    .ok (writeText (mkdirParents fs path.dropLast) path content)

/-! ## Service handlers and parameter schemas (source lines 61–223) -/

/-- The parameters of `generate_automation` after schema validation
(defaults applied). -/
structure GenParams where
  «alias» : String
  description : Option String
  mode : String
  filename : Option String
  overwrite : Bool
  trigger : List Step
  condition : Option (List Step)
  action : List Step

/-- `call.data.get("filename") or slugify(definition.alias) + ".yaml"`
(source line 130). -/
def resolvedFilename (p : GenParams) : String :=
  pyOrStr p.filename (slugify p.«alias» ++ ".yaml")

/-- `handle_generate` (source lines 120–148): build the definition, resolve
the filename, create the output directory, refuse an existing target when
`overwrite` is false (naming the exact path), else serialize and write. -/
def handle_generate (fs : FS) (p : GenParams) : HaResult :=
  let definition : AutomationDefinition :=
    ⟨p.«alias», p.description, p.mode, p.trigger, p.condition, p.action⟩
  let filename := resolvedFilename p
  let fs := mkdirParents fs ["automation_helper"]
  let output_file : FsPath := ["automation_helper", filename]
  if pathExists fs output_file && !p.overwrite then
    .error ("Automation Helper refused to overwrite existing file: " ++ pathStr output_file, fs)
  else
    async_write_file fs output_file definition.to_yaml p.overwrite

/-- A raw `generate_automation` service call: `none` is an absent key. -/
structure GenCall where
  «alias» : Option String := none
  description : Option String := none
  mode : Option String := none
  filename : Option String := none
  overwrite : Option Bool := none
  trigger : Option (List Step) := none
  condition : Option (List Step) := none
  action : Option (List Step) := none

def requiredKeyMsg (k : String) : String :=
  "required key not provided @ data['" ++ k ++ "']"

/-- `SERVICE_SCHEMA` (source lines 61–72): `alias`, `trigger` and `action`
are required keys, `mode` defaults to `"single"`, `overwrite` to `False`.
The per-element `cv.SCRIPT_SCHEMA` passes step mappings through, and the
sequence validator `[cv.SCRIPT_SCHEMA]` accepts a list of any length,
including the empty list. -/
def SERVICE_SCHEMA (c : GenCall) : Except String GenParams :=
  match c.«alias» with
  | none => .error (requiredKeyMsg "alias")
  | some a =>
    match c.trigger with
    | none => .error (requiredKeyMsg "trigger")
    | some t =>
      match c.action with
      | none => .error (requiredKeyMsg "action")
      | some act =>
        .ok ⟨a, c.description, c.mode.getD "single", c.filename,
             c.overwrite.getD false, t, c.condition, act⟩

/-- The registered `generate_automation` service: schema validation (which
touches no filesystem state), then the handler. -/
def generate_automation (fs : FS) (c : GenCall) : HaResult :=
  match SERVICE_SCHEMA c with
  | .error e => .error (e, fs)
  | .ok p => handle_generate fs p

/-- The parameters of `generate_package` after schema validation. -/
structure PkgParams where
  name : String
  description : Option String
  overwrite : Bool
  include_example : Bool
  include_scripts : Bool
  include_scenes : Bool
  include_readme : Bool
  include_blueprint : Bool
  blueprint_domain : String

/-- The loop over the `files` mapping (source lines 211–214): write each
content into the package directory through the guarded writer, stopping at
the first failure. -/
def writeAll (fs : FS) (dir : FsPath) (files : List (String × String))
    (overwrite : Bool) : HaResult :=
  match files with
  | [] => .ok fs
  | (rel, content) :: rest =>
    match async_write_file fs (dir ++ [rel]) content overwrite with
    | .error e => .error e
    | .ok fs2 => writeAll fs2 dir rest overwrite

/-- `handle_generate_package` (source lines 157–216): reject a name that is
empty after stripping before any filesystem action; refuse an existing
non-empty package directory unless `overwrite`; create the directory; build
the included files (always `automations.yaml`, then `scripts.yaml`,
`scenes.yaml`, `README.md` per flag — the Python dict defers the builders,
which are pure, so evaluating them here is equivalent); write the blueprint
first when requested, then the files. -/
def handle_generate_package (fs : FS) (p : PkgParams) : HaResult :=
  let package_name := pyStripStr p.name
  if package_name.isEmpty then
    .error ("Package name cannot be empty", fs)
  else
    let slug := slugify package_name
    let human_title := humanize package_name
    let fs := mkdirParents fs ["packages"]
    let package_dir : FsPath := ["packages", slug]
    if pathExists fs package_dir && !p.overwrite && dirNonEmpty fs package_dir then
      .error ("Automation Helper refused to overwrite non-empty package directory: "
        ++ pathStr package_dir, fs)
    else
      let fs := mkdirParents fs package_dir
      let files : List (String × String) :=
        [("automations.yaml",
          build_automation_package_yaml human_title p.description p.include_example)]
        ++ (if p.include_scripts then
              [("scripts.yaml", build_scripts_package_yaml human_title p.include_example)]
            else [])
        ++ (if p.include_scenes then
              [("scenes.yaml", build_scenes_package_yaml human_title p.include_example)]
            else [])
        ++ (if p.include_readme then
              [("README.md", build_package_readme human_title p.description
                  p.include_scripts p.include_scenes p.include_blueprint)]
            else [])
      let afterBlueprint : HaResult :=
        if p.include_blueprint then
          let blueprint_dir := package_dir ++ ["blueprints", p.blueprint_domain]
          let fs := mkdirParents fs blueprint_dir
          let blueprint_path := blueprint_dir ++ [slug ++ ".yaml"]
          async_write_file fs blueprint_path
            (build_blueprint_yaml human_title p.description p.blueprint_domain) p.overwrite
        else .ok fs
      match afterBlueprint with
      | .error e => .error e
      | .ok fs2 => writeAll fs2 package_dir files p.overwrite

/-- A raw `generate_package` service call: `none` is an absent key. -/
structure PkgCall where
  name : Option String := none
  description : Option String := none
  overwrite : Option Bool := none
  include_example : Option Bool := none
  include_scripts : Option Bool := none
  include_scenes : Option Bool := none
  include_readme : Option Bool := none
  blueprint_domain : Option String := none
  include_blueprint : Option Bool := none

/-- `PACKAGE_SERVICE_SCHEMA` (source lines 75–87): `name` is required,
`overwrite`/`include_scenes`/`include_blueprint` default to `False`,
`include_example`/`include_scripts`/`include_readme` to `True`, and
`blueprint_domain` defaults to `"automation"` and must be `"automation"`
or `"script"`. -/
def PACKAGE_SERVICE_SCHEMA (c : PkgCall) : Except String PkgParams :=
  match c.name with
  | none => .error (requiredKeyMsg "name")
  | some n =>
    let bd := c.blueprint_domain.getD "automation"
    if bd == "automation" || bd == "script" then
      .ok ⟨n, c.description, c.overwrite.getD false, c.include_example.getD true,
           c.include_scripts.getD true, c.include_scenes.getD false,
           c.include_readme.getD true, c.include_blueprint.getD false, bd⟩
    else
      .error ("value must be one of ['automation', 'script'] for dictionary value @ data['blueprint_domain']")

/-- The registered `generate_package` service: schema validation (which
touches no filesystem state), then the handler. -/
def generate_package (fs : FS) (c : PkgCall) : HaResult :=
  match PACKAGE_SERVICE_SCHEMA c with
  | .error e => .error (e, fs)
  | .ok p => handle_generate_package fs p

/-! ## Concrete inputs used by witnesses and counterexamples -/

/-- A concrete state-trigger step. -/
def demoStep : Step :=
  YamlMap.ofList [("platform", .str "state"), ("entity_id", .str "binary_sensor.example"),
    ("to", .str "on")]

/-- A concrete logging action step. -/
def demoActionStep : Step := YamlMap.ofList [("service", .str "logbook.log")]

/-- Validated parameters of a plain `generate_automation` call. -/
def demoParams : GenParams :=
  { «alias» := "Night Mode", description := none, mode := "single", filename := none,
    overwrite := false, trigger := [demoStep], condition := none, action := [demoActionStep] }

/-- The filesystem after running `demoParams` against the empty filesystem. -/
def demoFs1 : FS := (handle_generate FS.empty demoParams).toOption.getD FS.empty

/-- A `generate_automation` call whose trigger list is present but empty. -/
def emptyTriggerCall : GenCall :=
  { «alias» := some "Empty Trigger", trigger := some [],
    action := some [demoActionStep] }

/-- A `generate_automation` call missing the `trigger` key. -/
def missingTriggerCall : GenCall := { «alias» := some "x" }

/-- Validated `generate_package` parameters whose name is all whitespace. -/
def blankPkgParams : PkgParams :=
  { name := "   ", description := none, overwrite := false, include_example := true,
    include_scripts := true, include_scenes := false, include_readme := true,
    include_blueprint := false, blueprint_domain := "automation" }

/-- The `generate_package` call of the specification's default-flags test. -/
def morningRoutineCall : PkgCall := { name := some "Morning Routine" }

/-- The same call with a script-domain blueprint requested. -/
def morningRoutineBlueprintCall : PkgCall :=
  { name := some "Morning Routine", include_blueprint := some true,
    blueprint_domain := some "script" }

/-! ## Verification vocabulary -/

/-- The characters that can appear in a non-fallback `slugify` result:
lowercase letters, digits, underscore. -/
def isSlugOut (c : Char) : Bool :=
  (97 ≤ c.toNat && c.toNat ≤ 122) || (48 ≤ c.toNat && c.toNat ≤ 57) || c.toNat == 95

/-- The character class `[a-z0-9_-]` named by the specification. -/
def isSlugChar (c : Char) : Bool := isSlugOut c || c.toNat == 45

/-- A character `slugify` removes outright: its lowercased form survives
neither the filter `[^a-z0-9_\- ]` nor (being no space or hyphen) the
collapsing substitution. -/
def isSlugRemoved (c : Char) : Bool := !isSlugKeep (asciiLower c)

/-! ## Lemmas about the string primitives -/

theorem dropWhile_eq_self_of {α : Type} {p : α → Bool} {l : List α}
    (h : ∀ c ∈ l, p c = false) : l.dropWhile p = l := by
  cases l with
  | nil => rfl
  | cons a t =>
    have ha : p a = false := h a (List.mem_cons_self a t)
    simp [List.dropWhile, ha]

theorem mem_pyStrip {l : List Char} {c : Char} (h : c ∈ pyStrip l) : c ∈ l := by
  unfold pyStrip at h
  rw [List.mem_reverse] at h
  have h1 := List.dropWhile_subset isPySpace h
  rw [List.mem_reverse] at h1
  exact List.dropWhile_subset isPySpace h1

theorem pyStrip_eq_self {l : List Char} (h : ∀ c ∈ l, isPySpace c = false) :
    pyStrip l = l := by
  unfold pyStrip
  rw [dropWhile_eq_self_of h]
  rw [dropWhile_eq_self_of (fun c hc => h c (List.mem_reverse.mp hc))]
  exact List.reverse_reverse l

theorem mem_collapseRuns {r : Char} {p : Char → Bool} {l : List Char} :
    ∀ {b : Bool} {c : Char}, c ∈ collapseRuns r p b l →
      c = r ∨ (c ∈ l ∧ p c = false) := by
  induction l with
  | nil => intro b c h; cases b <;> simp [collapseRuns] at h
  | cons a t ih =>
    intro b c h
    by_cases hp : p a = true
    · cases b with
      | true =>
        simp only [collapseRuns, hp, if_true] at h
        rcases ih h with h1 | ⟨h2, h3⟩
        · exact Or.inl h1
        · exact Or.inr ⟨List.mem_cons_of_mem a h2, h3⟩
      | false =>
        simp only [collapseRuns, hp, if_true, List.mem_cons] at h
        rcases h with h1 | h1
        · exact Or.inl h1
        · rcases ih h1 with h2 | ⟨h2, h3⟩
          · exact Or.inl h2
          · exact Or.inr ⟨List.mem_cons_of_mem a h2, h3⟩
    · rw [Bool.not_eq_true] at hp
      have hred : ∀ b, collapseRuns r p b (a :: t) = a :: collapseRuns r p false t := by
        intro b; cases b <;> simp [collapseRuns, hp]
      rw [hred] at h
      rcases List.mem_cons.mp h with h1 | h1
      · exact Or.inr ⟨h1 ▸ List.mem_cons_self a t, h1 ▸ hp⟩
      · rcases ih h1 with h2 | ⟨h2, h3⟩
        · exact Or.inl h2
        · exact Or.inr ⟨List.mem_cons_of_mem a h2, h3⟩

theorem collapseRuns_eq_self {r : Char} {p : Char → Bool} {l : List Char}
    (h : ∀ c ∈ l, p c = false) : ∀ b, collapseRuns r p b l = l := by
  induction l with
  | nil => intro b; cases b <;> rfl
  | cons a t ih =>
    intro b
    have ha : p a = false := h a (List.mem_cons_self a t)
    have ht := ih (fun c hc => h c (List.mem_cons_of_mem a hc))
    cases b <;> simp [collapseRuns, ha, ht]

theorem map_eq_self_of {α : Type} {f : α → α} {l : List α}
    (h : ∀ c ∈ l, f c = c) : l.map f = l := by
  induction l with
  | nil => rfl
  | cons a t ih =>
    simp only [List.map_cons, h a (List.mem_cons_self a t)]
    rw [ih (fun c hc => h c (List.mem_cons_of_mem a hc))]

/-! ## Lemmas about `slugify` -/

theorem slugCollapsed_chars {l : List Char} {c : Char} (h : c ∈ slugCollapsed l) :
    isSlugOut c = true := by
  rcases mem_collapseRuns h with h1 | ⟨h2, h3⟩
  · subst h1; decide
  · have hk : isSlugKeep c = true := (List.mem_filter.mp h2).2
    simp only [isSlugKeep, isSpaceOrHyphen, isPySpace, Bool.or_eq_true,
      Bool.and_eq_true, decide_eq_true_eq, beq_iff_eq, Bool.or_eq_false_iff,
      beq_eq_false_iff_ne, ne_eq] at hk h3
    simp only [isSlugOut, Bool.or_eq_true, Bool.and_eq_true, decide_eq_true_eq,
      beq_iff_eq]
    omega

theorem slugifyCore_chars {l : List Char} {c : Char} (h : c ∈ slugifyCore l) :
    isSlugOut c = true := by
  unfold slugifyCore at h
  split at h
  · revert c h
    decide
  · exact slugCollapsed_chars h

theorem slugifyCore_ne_nil (l : List Char) : slugifyCore l ≠ [] := by
  unfold slugifyCore
  split
  · decide
  · next hne => exact fun hcon => hne (by simp [hcon])

theorem slugifyCore_fixed {m : List Char} (hchars : ∀ c ∈ m, isSlugOut c = true)
    (hne : m ≠ []) : slugifyCore m = m := by
  have hout : ∀ c ∈ m, (97 ≤ c.toNat ∧ c.toNat ≤ 122) ∨ (48 ≤ c.toNat ∧ c.toNat ≤ 57) ∨
      c.toNat = 95 := by
    intro c hc
    have := hchars c hc
    simp only [isSlugOut, Bool.or_eq_true, Bool.and_eq_true, decide_eq_true_eq,
      beq_iff_eq] at this
    omega
  have hcoll : slugCollapsed m = m := by
    unfold slugCollapsed
    rw [pyStrip_eq_self (by
      intro c hc
      have := hout c hc
      simp only [isPySpace, Bool.or_eq_false_iff, beq_eq_false_iff_ne, ne_eq]
      omega)]
    rw [map_eq_self_of (by
      intro c hc
      have := hout c hc
      unfold asciiLower
      rw [if_neg]
      omega)]
    rw [List.filter_eq_self.mpr (by
      intro c hc
      have := hout c hc
      simp only [isSlugKeep, Bool.or_eq_true, Bool.and_eq_true, decide_eq_true_eq,
        beq_iff_eq]
      omega)]
    exact collapseRuns_eq_self (by
      intro c hc
      have := hout c hc
      simp only [isSpaceOrHyphen, isPySpace, Bool.or_eq_false_iff,
        beq_eq_false_iff_ne, ne_eq]
      omega) false
  unfold slugifyCore
  rw [hcoll]
  rw [if_neg (by simpa using hne)]

theorem slugifyCore_all_removed {l : List Char}
    (h : ∀ c ∈ l, isSlugKeep (asciiLower c) = false) :
    slugifyCore l = "automation".data := by
  have hfilter : ((pyStrip l).map asciiLower).filter isSlugKeep = [] := by
    rw [List.filter_eq_nil_iff]
    intro a ha
    rcases List.mem_map.mp ha with ⟨b, hb, rfl⟩
    simp [h b (mem_pyStrip hb)]
  unfold slugifyCore slugCollapsed
  rw [hfilter]
  rfl

/-! ## Claim C2: the slugify contract -/

/-- C2, counterexample: the claim says every run of whitespace is collapsed
to a single underscore, but `slugify` strips leading/trailing whitespace
(so `" a"` yields `"a"`, not `"_a"`) and deletes non-space whitespace such
as a tab before the collapsing substitution ever sees it (so `"a\tb"`
yields `"ab"`, not `"a_b"`). -/
theorem slugify_collapse_counterexample :
    slugify " a" = "a" ∧ slugify "a\tb" = "ab" ∧
    slugify " a" ≠ "_a" ∧ slugify "a\tb" ≠ "a_b" := by
  decide

/-- C2, amended: for every input string, `slugify` returns a nonempty string
over `[a-z0-9_-]` (in fact over `[a-z0-9_]`); an input all of whose
characters are removed (their lowercased form survives neither the character
filter nor the run collapsing) yields the fixed fallback `"automation"`;
interior runs of spaces/hyphens are collapsed to single underscores while
leading/trailing whitespace is stripped and other whitespace is removed, as
the three concrete conjuncts illustrate. -/
theorem slugify_charset_and_fallback (s : String) :
    (slugify s).data.all isSlugChar = true ∧
    slugify s ≠ "" ∧
    (s.data.all isSlugRemoved = true → slugify s = "automation") ∧
    slugify "a - b" = "a_b" ∧ slugify " a" = "a" ∧ slugify "a\tb" = "ab" := by
  refine ⟨?_, ?_, ?_, by decide, by decide, by decide⟩
  · rw [List.all_eq_true]
    intro c hc
    have h1 : isSlugOut c = true := slugifyCore_chars hc
    simp [isSlugChar, h1]
  · intro hcon
    have := congrArg String.data hcon
    exact slugifyCore_ne_nil s.data this
  · intro hall
    rw [List.all_eq_true] at hall
    have h : ∀ c ∈ s.data, isSlugKeep (asciiLower c) = false := by
      intro c hc
      have := hall c hc
      simpa [isSlugRemoved] using this
    unfold slugify
    rw [slugifyCore_all_removed h]

/-- Witness for `slugify_charset_and_fallback`: the all-removed hypothesis
discharged at the concrete input `"!!!"`. -/
theorem slugify_charset_and_fallback_witness :
    slugify "!!!" = "automation" ∧ (slugify "Hi there").data.all isSlugChar = true :=
  ⟨(slugify_charset_and_fallback "!!!").2.2.1 (by decide),
   (slugify_charset_and_fallback "Hi there").1⟩

/-! ## Claim C3: idempotence of slugify -/

/-- C3: `slugify` is idempotent — for every string `x`,
`slugify (slugify x) = slugify x`: a non-fallback result consists of
characters over `[a-z0-9_]` that strip, lowercase, filter and collapse all
leave unchanged, and the fallback `"automation"` is itself such a string. -/
theorem slugify_idempotent (s : String) : slugify (slugify s) = slugify s := by
  unfold slugify
  have h : slugifyCore (String.mk (slugifyCore s.data)).data = slugifyCore s.data :=
    slugifyCore_fixed (fun c hc => slugifyCore_chars hc) (slugifyCore_ne_nil s.data)
  rw [h]

/-! ## Claims C4 and C10: optional keys of the serialized automation -/

/-- C4: the serialized automation always contains the `trigger` and `action`
keys (their values may be empty lists), and a definition with no description
and no condition serializes with neither a `description` nor a `condition`
key — `AutomationDefinition.to_yaml` emits exactly the keys of
`AutomationDefinition.yamlKeys`, in order, and never a null placeholder. -/
theorem to_yaml_required_and_optional_keys (d : AutomationDefinition) :
    "trigger" ∈ d.yamlKeys ∧ "action" ∈ d.yamlKeys ∧
    (d.description = none → d.condition = none →
      "description" ∉ d.yamlKeys ∧ "condition" ∉ d.yamlKeys) := by
  refine ⟨?_, ?_, ?_⟩
  · simp [AutomationDefinition.yamlKeys, AutomationDefinition.entries]
  · simp [AutomationDefinition.yamlKeys, AutomationDefinition.entries]
  · intro h1 h2
    simp [AutomationDefinition.yamlKeys, AutomationDefinition.entries, h1, h2,
      pyTruthyStr, pyTruthyList]

/-- Witness for `to_yaml_required_and_optional_keys` at a concrete
definition with neither description nor condition. -/
theorem to_yaml_required_and_optional_keys_witness :
    "description" ∉ (AutomationDefinition.mk "Night Mode" none "single" [] none []).yamlKeys ∧
    "condition" ∉ (AutomationDefinition.mk "Night Mode" none "single" [] none []).yamlKeys :=
  (to_yaml_required_and_optional_keys (AutomationDefinition.mk "Night Mode" none "single" [] none [])).2.2 rfl rfl

/-- C10: falsy optional values are serialized exactly like absent ones — an
empty-string description and an empty condition list are omitted from the
output just as `None` is (Python truthiness governs both `if` statements in
`to_yaml`). -/
theorem to_yaml_falsy_optionals (d : AutomationDefinition) :
    ((d.description = some "" ∨ d.description = none) → "description" ∉ d.yamlKeys) ∧
    ((d.condition = some [] ∨ d.condition = none) → "condition" ∉ d.yamlKeys) := by
  constructor
  · intro h
    have hd : pyTruthyStr d.description = false := by
      rcases h with h | h <;> rw [h] <;> decide
    simp [AutomationDefinition.yamlKeys, AutomationDefinition.entries, hd]
  · intro h
    have hc : pyTruthyList d.condition = false := by
      rcases h with h | h <;> rw [h] <;> decide
    simp [AutomationDefinition.yamlKeys, AutomationDefinition.entries, hc]

/-- Witness for `to_yaml_falsy_optionals` at a concrete definition whose
description is the empty string and whose condition is the empty list. -/
theorem to_yaml_falsy_optionals_witness :
    "description" ∉ (AutomationDefinition.mk "x" (some "") "single" [] (some []) []).yamlKeys ∧
    "condition" ∉ (AutomationDefinition.mk "x" (some "") "single" [] (some []) []).yamlKeys :=
  ⟨(to_yaml_falsy_optionals (AutomationDefinition.mk "x" (some "") "single" [] (some []) [])).1 (Or.inl rfl),
   (to_yaml_falsy_optionals (AutomationDefinition.mk "x" (some "") "single" [] (some []) [])).2 (Or.inl rfl)⟩

/-! ## Claim C1: the guarded file writer -/

theorem lookupFile_writeText_self (fs : FS) (p : FsPath) (c : String) :
    lookupFile (writeText fs p c) p = some c := by
  simp [lookupFile, writeText, List.find?_cons]

theorem files_mkdirParents (fs : FS) (d : FsPath) :
    (mkdirParents fs d).files = fs.files := rfl

theorem any_of_find?_eq_some {α : Type} {f : α → Bool} {l : List α} {a : α}
    (h : l.find? f = some a) : l.any f = true := by
  induction l with
  | nil => simp [List.find?] at h
  | cons x t ih =>
    rw [List.find?_cons] at h
    by_cases hx : f x = true
    · simp [List.any_cons, hx]
    · rw [Bool.not_eq_true] at hx
      rw [hx] at h
      simp only [if_false, Bool.false_eq_true] at h
      simp [List.any_cons, hx, ih h]

theorem filesHit_of_lookupFile {fs : FS} {p : FsPath} {c : String}
    (h : lookupFile fs p = some c) :
    fs.files.any (fun e => decide (e.1 = p)) = true := by
  unfold lookupFile at h
  cases hf : fs.files.find? (fun e => decide (e.1 = p)) with
  | none => rw [hf] at h; simp at h
  | some e => exact any_of_find?_eq_some hf

theorem pathExists_of_lookupFile {fs : FS} {p : FsPath} {c : String}
    (h : lookupFile fs p = some c) : pathExists fs p = true := by
  unfold pathExists
  rw [filesHit_of_lookupFile h]
  rfl

/-- C1: the guarded writer writes (creating parent directories) whenever the
target does not exist or `overwrite` is set; an existing target with
`overwrite` unset makes it fail with a message naming that exact path and
the filesystem unchanged; and running `handle_generate` twice with the same
parameters and `overwrite=false` makes the second call fail with a message
naming the exact file while the file written by the first call keeps its
content (the second call changes nothing but the directory records of its
`mkdir`). -/
theorem guarded_writer_contract :
    (∀ (fs : FS) (path : FsPath) (content : String) (overwrite : Bool),
      pathExists fs path = false ∨ overwrite = true →
        async_write_file fs path content overwrite =
          .ok (writeText (mkdirParents fs path.dropLast) path content) ∧
        lookupFile (writeText (mkdirParents fs path.dropLast) path content) path =
          some content) ∧
    (∀ (fs : FS) (path : FsPath) (content : String),
      pathExists fs path = true →
        async_write_file fs path content false =
          .error ("Automation Helper refused to overwrite " ++ pathStr path, fs)) ∧
    (∀ (fs : FS) (p : GenParams) (fs1 : FS),
      p.overwrite = false →
      handle_generate fs p = .ok fs1 →
        lookupFile fs1 ["automation_helper", resolvedFilename p] =
          some (AutomationDefinition.mk p.«alias» p.description p.mode p.trigger
            p.condition p.action).to_yaml ∧
        handle_generate fs1 p =
          .error ("Automation Helper refused to overwrite existing file: " ++
              pathStr ["automation_helper", resolvedFilename p],
            mkdirParents fs1 ["automation_helper"]) ∧
        (mkdirParents fs1 ["automation_helper"]).files = fs1.files) := by
  refine ⟨?_, ?_, ?_⟩
  · intro fs path content overwrite h
    have hcond : (pathExists fs path && !overwrite) = false := by
      rcases h with h | h <;> simp [h]
    exact ⟨by simp [async_write_file, hcond], lookupFile_writeText_self _ _ _⟩
  · intro fs path content h
    simp [async_write_file, h]
  · intro fs p fs1 how h
    simp only [handle_generate, how, Bool.not_false, Bool.and_true] at h
    split at h
    · exact absurd h (by simp)
    · simp only [async_write_file, how, Bool.not_false, Bool.and_true] at h
      split at h
      · exact absurd h (by simp)
      · have hfs1 : writeText
            (mkdirParents (mkdirParents fs ["automation_helper"])
              (List.dropLast ["automation_helper", resolvedFilename p]))
            ["automation_helper", resolvedFilename p]
            (AutomationDefinition.mk p.«alias» p.description p.mode p.trigger
              p.condition p.action).to_yaml = fs1 := by
          exact Except.ok.inj h
        have hlook : lookupFile fs1 ["automation_helper", resolvedFilename p] =
            some (AutomationDefinition.mk p.«alias» p.description p.mode p.trigger
              p.condition p.action).to_yaml := by
          rw [← hfs1]
          exact lookupFile_writeText_self _ _ _
        refine ⟨hlook, ?_, rfl⟩
        have hexists : pathExists (mkdirParents fs1 ["automation_helper"])
            ["automation_helper", resolvedFilename p] = true := by
          unfold pathExists
          rw [files_mkdirParents, filesHit_of_lookupFile hlook]
          rfl
        simp only [handle_generate, how, Bool.not_false, Bool.and_true, hexists, if_true]

/-- Witness for `guarded_writer_contract`: its hypotheses discharged at a
concrete first run against the empty filesystem. -/
theorem guarded_writer_contract_witness :
    lookupFile demoFs1 ["automation_helper", resolvedFilename demoParams] =
      some (AutomationDefinition.mk demoParams.«alias» demoParams.description demoParams.mode
        demoParams.trigger demoParams.condition demoParams.action).to_yaml :=
  (guarded_writer_contract.2.2 FS.empty demoParams demoFs1 rfl rfl).1

/-! ## Claim C5: empty trigger/action lists -/

/-- C5, counterexample: a call supplying an empty trigger list is not
rejected — it passes schema validation, the handler runs, and a file whose
trigger serializes as the empty list is written. -/
theorem empty_trigger_accepted_counterexample :
    ((generate_automation FS.empty emptyTriggerCall).toOption.map
        (fun fs => fs.files.map Prod.fst)) =
      some [["automation_helper", "empty_trigger.yaml"]] ∧
    ((generate_automation FS.empty emptyTriggerCall).toOption.map (fun fs =>
        (lookupFile fs ["automation_helper", "empty_trigger.yaml"]).map
          (fun c => containsStr c "trigger: []"))) = some (some true) := by
  decide

/-- C5, amended: `generate_automation` requires the `trigger` and `action`
keys to be present — a call missing either is rejected by schema validation
before any filesystem action, with a message naming the key — but empty
lists satisfy the schema: a call supplying an empty trigger (or action)
list is accepted and a file is written. -/
theorem service_schema_required_keys (fs : FS) (c : GenCall) :
    (c.«alias» ≠ none → c.trigger = none →
      generate_automation fs c = .error (requiredKeyMsg "trigger", fs)) ∧
    (c.«alias» ≠ none → c.trigger ≠ none → c.action = none →
      generate_automation fs c = .error (requiredKeyMsg "action", fs)) ∧
    (SERVICE_SCHEMA emptyTriggerCall).isOk = true := by
  refine ⟨?_, ?_, by decide⟩
  · intro ha ht
    rcases ho : c.«alias» with _ | a
    · exact absurd ho ha
    · simp [generate_automation, SERVICE_SCHEMA, ho, ht]
  · intro ha ht hact
    rcases ho : c.«alias» with _ | a
    · exact absurd ho ha
    · rcases ht2 : c.trigger with _ | t
      · exact absurd ht2 ht
      · simp [generate_automation, SERVICE_SCHEMA, ho, ht2, hact]

/-- Witness for `service_schema_required_keys`: the missing-trigger case at
a concrete call. -/
theorem service_schema_required_keys_witness :
    generate_automation FS.empty missingTriggerCall =
      .error (requiredKeyMsg "trigger", FS.empty) :=
  (service_schema_required_keys FS.empty missingTriggerCall).1 (by decide) rfl

/-! ## Claim C6: whitespace-only package name -/

/-- C6: a package name that is empty after stripping is rejected with
"Package name cannot be empty" and the returned filesystem state is exactly
the input state — the failure precedes every directory creation. The second
conjunct runs the registered service itself on `name="   "`. -/
theorem generate_package_blank_name (fs : FS) (p : PkgParams)
    (h : pyStripStr p.name = "") :
    handle_generate_package fs p = .error ("Package name cannot be empty", fs) ∧
    generate_package fs { name := some "   " } =
      .error ("Package name cannot be empty", fs) := by
  constructor
  · have hempty : (pyStripStr p.name).isEmpty = true := by rw [h]; rfl
    simp [handle_generate_package, hempty]
  · rfl

/-- Witness for `generate_package_blank_name` at the whitespace-only name. -/
theorem generate_package_blank_name_witness :
    handle_generate_package FS.empty blankPkgParams =
      .error ("Package name cannot be empty", FS.empty) :=
  (generate_package_blank_name FS.empty blankPkgParams (by decide)).1

/-! ## Claim C7: default package layout -/

set_option maxRecDepth 8000 in
/-- C7: `generate_package` with `name="Morning Routine"` and every flag at
its default writes exactly `automations.yaml`, `scripts.yaml` and
`README.md` under `packages/morning_routine/` (listed in reverse write
order by the model), creates no directory containing a `blueprints`
segment, and writes no `scenes.yaml`. -/
theorem generate_package_default_layout :
    ((generate_package FS.empty morningRoutineCall).toOption.map
        (fun fs => fs.files.map Prod.fst)) =
      some [["packages", "morning_routine", "README.md"],
            ["packages", "morning_routine", "scripts.yaml"],
            ["packages", "morning_routine", "automations.yaml"]] ∧
    ((generate_package FS.empty morningRoutineCall).toOption.map
        (fun fs => (fs.dirs.any (fun d => d.contains "blueprints"),
                    pathExists fs ["packages", "morning_routine", "scenes.yaml"]))) =
      some (false, false) := by
  exact ⟨by decide, by decide⟩

/-! ## Claim C8: script-domain blueprint -/

set_option maxRecDepth 8000 in
/-- C8: `generate_package` with `include_blueprint=true` and
`blueprint_domain="script"` writes the blueprint at
`packages/morning_routine/blueprints/script/morning_routine.yaml`, and that
file contains a `sequence` key and no `trigger` key (the string `trigger`
does not occur in it at all). -/
theorem generate_package_script_blueprint :
    ((generate_package FS.empty morningRoutineBlueprintCall).toOption.map (fun fs =>
        (lookupFile fs
            ["packages", "morning_routine", "blueprints", "script", "morning_routine.yaml"]).map
          (fun content => (containsStr content "sequence:", containsStr content "trigger")))) =
      some (some (true, false)) := by
  decide

/-! ## Claim C9: the unquoted input-reference sentinel -/

set_option maxRecDepth 8000 in
/-- C9: the serializer alone would emit the sentinel single-quoted (the
pre-substitution text contains `entity_id: '!input target_entity'`), and
`build_blueprint_yaml`'s post-serialization substitution leaves it unquoted:
the final text contains `entity_id: !input target_entity` and neither the
single- nor the double-quoted form anywhere. -/
theorem blueprint_input_token_unquoted :
    containsStr (safeDump (blueprintStructure "Morning Routine" none "automation"))
        "entity_id: '!input target_entity'" = true ∧
    containsStr (build_blueprint_yaml "Morning Routine" none "automation")
        "entity_id: !input target_entity" = true ∧
    containsStr (build_blueprint_yaml "Morning Routine" none "automation")
        "'!input target_entity'" = false ∧
    containsStr (build_blueprint_yaml "Morning Routine" none "automation")
        "\"!input target_entity\"" = false := by
  decide

